import Mathlib

/-!
Shallow embedding of the two widgets of `steps-selector-ui`:
the `popin-dialog` floating panel (`src/popin-dialog.ts`) and the
`steps-selector` step-sequence editor.  Geometry is modelled over `Int`
(CSS pixel offsets), component state as structures, and DOM side effects
(dispatched `CustomEvent`s, `console.error`) as explicit event traces
returned next to the new state.
-/

/-! ### PopinDialog: geometry and `ensureElementInView` -/

/-- Bounding rectangle as produced by `getBoundingClientRect`, in viewport
coordinates; `right` and `bottom` are derived. -/
structure Rect where
  left : Int
  top : Int
  width : Int
  height : Int
deriving DecidableEq, Repr

def Rect.right (r : Rect) : Int := r.left + r.width

def Rect.bottom (r : Rect) : Int := r.top + r.height

/-- Embeds `PopinDialog.ensureElementInView`.  The method first resets
`style.left`/`style.top` (so `rect` is the natural, unclamped box), reads the
rectangle once, and then runs four independent `if`s, each testing the
ORIGINAL rectangle: right overflow sets `left = viewportWidth - width`, a
negative left then overrides with `left = 0`, and symmetrically for the
vertical axis.  The result is the final box after the style assignments. -/
def ensureElementInView (rect : Rect) (viewportWidth viewportHeight : Int) : Rect :=
  let left1 := if rect.right > viewportWidth then viewportWidth - rect.width else rect.left
  let left2 := if rect.left < 0 then 0 else left1
  let top1 := if rect.bottom > viewportHeight then viewportHeight - rect.height else rect.top
  let top2 := if rect.top < 0 then 0 else top1
  { left := left2, top := top2, width := rect.width, height := rect.height }

/-! ### PopinDialog: visibility, focus and event traces -/

/-- Events the component documents (`@fires popin-dialog-opened` /
`popin-dialog-closed`). -/
inductive PopinEvent
  | opened
  | closed
deriving DecidableEq, Repr

/-- Visibility/focus state of a `popin-dialog` element: `hidden` mirrors the
`hidden` attribute, `focused` whether the element holds keyboard focus. -/
structure PopinDialog where
  hidden : Bool
  focused : Bool
deriving DecidableEq, Repr

/-- The panel is visible exactly when the `hidden` attribute is absent. -/
def PopinDialog.visible (s : PopinDialog) : Bool := !s.hidden

def escapeKey : String := "Escape"

/-- Embeds the private `blured()` handler: `this.setAttribute('hidden', '')`.
It dispatches no event. -/
def PopinDialog.blured (s : PopinDialog) : PopinDialog × List PopinEvent :=
  ({ s with hidden := true }, [])

/-- Embeds `this.blur()` as the browser performs it: keyboard focus is
released, then the element's `blur` handler (`blured`) runs. -/
def PopinDialog.blurElement (s : PopinDialog) : PopinDialog × List PopinEvent :=
  PopinDialog.blured { s with focused := false }

/-- Embeds the `keydown` handler: on `Escape` it calls `this.blur()`,
otherwise it does nothing. -/
def PopinDialog.keydown (s : PopinDialog) (key : String) : PopinDialog × List PopinEvent :=
  if key == escapeKey then s.blurElement else (s, [])

/-- Focus loss caused from outside (e.g. the user clicks elsewhere): the
browser removes focus and fires the same `blur` handler. -/
def PopinDialog.focusLoss (s : PopinDialog) : PopinDialog × List PopinEvent :=
  s.blurElement

/-- Embeds `attributeChangedCallback`: when the `hidden` attribute is removed
(`value === null`) the element calls `this.focus()`. -/
def PopinDialog.attributeChangedCallback (s : PopinDialog) (name : String)
    (value : Option String) : PopinDialog × List PopinEvent :=
  if name == ("hidden" : String) && value.isNone then ({ s with focused := true }, [])
  else (s, [])

/-- A host un-hides the panel: the `hidden` attribute is removed and
`attributeChangedCallback` runs with the new value `null`. -/
def PopinDialog.unhide (s : PopinDialog) : PopinDialog × List PopinEvent :=
  PopinDialog.attributeChangedCallback { s with hidden := false } ("hidden") none

/-! ### Theorems about PopinDialog -/

/-- C1: for every panel whose width and height are at most the viewport's,
and every unclamped starting rectangle, after `ensureElementInView` the box
satisfies `0 ≤ left`, `left + width ≤ viewportWidth`, `0 ≤ top`,
`top + height ≤ viewportHeight`, and the width and height are unchanged. -/
theorem C1_clamping (rect : Rect) (vw vh : Int)
    (hw : rect.width ≤ vw) (hh : rect.height ≤ vh) :
    0 ≤ (ensureElementInView rect vw vh).left ∧
    (ensureElementInView rect vw vh).left + (ensureElementInView rect vw vh).width ≤ vw ∧
    0 ≤ (ensureElementInView rect vw vh).top ∧
    (ensureElementInView rect vw vh).top + (ensureElementInView rect vw vh).height ≤ vh ∧
    (ensureElementInView rect vw vh).width = rect.width ∧
    (ensureElementInView rect vw vh).height = rect.height := by
  simp only [ensureElementInView, Rect.right, Rect.bottom]
  split_ifs <;> simp_all

/-- Witness for C1 at the concrete rectangle `⟨60, -5, 50, 30⟩` in a
`100 × 40` viewport. -/
theorem C1_clamping_witness :
    0 ≤ (ensureElementInView ⟨60, -5, 50, 30⟩ 100 40).left ∧
    (ensureElementInView ⟨60, -5, 50, 30⟩ 100 40).left +
      (ensureElementInView ⟨60, -5, 50, 30⟩ 100 40).width ≤ 100 ∧
    0 ≤ (ensureElementInView ⟨60, -5, 50, 30⟩ 100 40).top ∧
    (ensureElementInView ⟨60, -5, 50, 30⟩ 100 40).top +
      (ensureElementInView ⟨60, -5, 50, 30⟩ 100 40).height ≤ 40 ∧
    (ensureElementInView ⟨60, -5, 50, 30⟩ 100 40).width = (Rect.mk 60 (-5) 50 30).width ∧
    (ensureElementInView ⟨60, -5, 50, 30⟩ 100 40).height = (Rect.mk 60 (-5) 50 30).height :=
  C1_clamping ⟨60, -5, 50, 30⟩ 100 40 (by decide) (by decide)

/-- C2 counterexample: a panel of width 100 at natural left 10 in a viewport
of width 50 ends with `left = 50 - 100 = -50`, not pinned to 0: the second
`if` tests the ORIGINAL `rect.left` (10, not negative), so only the
right-overflow branch fires. -/
theorem C2_counterexample :
    (ensureElementInView ⟨10, 0, 100, 10⟩ 50 100).left ≠ 0 := by decide

/-- C2 amended: the two axes are independent.  For a panel strictly wider
than the viewport (regardless of its height), the clamp still reduces
horizontal overflow to the minimum possible — the clamped box covers the
whole viewport width (`left ≤ 0` and `viewportWidth ≤ left + width`) — but
the left edge is pinned to 0 only when the natural left edge was negative;
when the natural left edge is ≥ 0 the right edge is aligned with the
viewport instead (`left = viewportWidth - width < 0`).  The same holds
vertically for a panel strictly taller than the viewport, and width and
height are unchanged. -/
theorem C2_amended (rect : Rect) (vw vh : Int) :
    (vw < rect.width →
     (rect.left < 0 → (ensureElementInView rect vw vh).left = 0) ∧
     (0 ≤ rect.left → (ensureElementInView rect vw vh).left = vw - rect.width) ∧
     (ensureElementInView rect vw vh).left ≤ 0 ∧
     vw ≤ (ensureElementInView rect vw vh).left + rect.width ∧
     (ensureElementInView rect vw vh).width = rect.width) ∧
    (vh < rect.height →
     (rect.top < 0 → (ensureElementInView rect vw vh).top = 0) ∧
     (0 ≤ rect.top → (ensureElementInView rect vw vh).top = vh - rect.height) ∧
     (ensureElementInView rect vw vh).top ≤ 0 ∧
     vh ≤ (ensureElementInView rect vw vh).top + rect.height ∧
     (ensureElementInView rect vw vh).height = rect.height) := by
  constructor <;> intro h <;>
    simp only [ensureElementInView, Rect.right, Rect.bottom] <;>
    split_ifs <;> simp_all <;> omega

/-- Witness for the amended C2: the panel of the counterexample
(`⟨10, 0, 100, 10⟩`, wider than the `50 × 100` viewport on the horizontal
axis only) ends with its right edge aligned to the viewport, and a panel
taller than its `100 × 80` viewport (`⟨0, 5, 10, 200⟩`) ends with its bottom
edge aligned. -/
theorem C2_amended_witness :
    (ensureElementInView ⟨10, 0, 100, 10⟩ 50 100).left = 50 - 100 ∧
    (ensureElementInView ⟨0, 5, 10, 200⟩ 100 80).top = 80 - 200 :=
  ⟨((C2_amended ⟨10, 0, 100, 10⟩ 50 100).1 (by decide)).2.1 (by decide),
   ((C2_amended ⟨0, 5, 10, 200⟩ 100 80).2 (by decide)).2.1 (by decide)⟩

/-- C8 (code bug): on visibility transitions the handlers emit NO events,
although the component's own doc comment declares `@fires
popin-dialog-opened` and `@fires popin-dialog-closed`.  Hiding a visible
focused panel via focus loss, un-hiding a hidden panel, and the Escape key
path all produce an empty event trace. -/
theorem C8_no_events_emitted :
    (PopinDialog.focusLoss ⟨false, true⟩).2 = [] ∧
    (PopinDialog.unhide ⟨true, false⟩).2 = [] ∧
    (PopinDialog.keydown ⟨false, true⟩ escapeKey).2 = [] := by decide

/-- C9: pressing Escape runs exactly the focus-loss path (the results,
state and events, coincide with an external blur), both leave the panel not
visible and unfocused, and un-hiding the panel makes it visible and captures
keyboard focus again. -/
theorem C9_escape_blur_unify (s : PopinDialog) :
    PopinDialog.keydown s escapeKey = PopinDialog.focusLoss s ∧
    PopinDialog.visible (PopinDialog.keydown s escapeKey).1 = false ∧
    PopinDialog.visible (PopinDialog.focusLoss s).1 = false ∧
    (PopinDialog.keydown s escapeKey).1.focused = false ∧
    PopinDialog.visible (PopinDialog.unhide s).1 = true ∧
    (PopinDialog.unhide s).1.focused = true := by
  cases s
  simp [PopinDialog.keydown, PopinDialog.focusLoss, PopinDialog.blurElement,
    PopinDialog.blured, PopinDialog.unhide, PopinDialog.attributeChangedCallback,
    PopinDialog.visible, escapeKey]

/-! ### StepsSelector: data model -/

/-- Embeds the `Step` interface: `name` is the identity key; `options` and
`optionsForm` are opaque payloads the editor never inspects (only the
presence of `optionsForm` drives a rendering flag), modelled as optional
opaque strings. -/
structure Step where
  name : String
  icon : String
  type : String
  tags : Option (List String) := none
  helpText : Option String := none
  errorText : Option String := none
  options : Option String := none
  optionsForm : Option String := none
deriving DecidableEq, Repr

/-- Host-observable effects of the editor: the `change` `CustomEvent`
dispatched by the `steps` setter (carrying the new sequence), and the
`console.error` call on an undefined step. -/
inductive SSEvent
  | change (value : List Step)
  | errorStepUndefined
deriving DecidableEq, Repr

/-- State of a `steps-selector` element: the live `steps`, the saved
`initialValue`, the `dirty` flag, and the host-supplied `completion`
function. -/
structure StepsSelector where
  steps : List Step
  initialValue : List Step
  dirty : Bool
  completion : List Step → List Step

/-! ### StepsSelector: operations

Each mutating operation returns the new state together with the trace of
events it dispatches.  Assigning `this.steps` fires one `change` event with
the new value; assigning `this.dirty` fires none (it only requests a
re-render). -/

/-- Embeds `setStepAt(at, step)`: when `step` is defined, `steps` becomes
`[...steps.slice(0, at), step, ...steps.slice(at + 1)]` and `dirty` is set;
when `step` is `undefined` it only logs an error and mutates nothing. -/
def StepsSelector.setStepAt (s : StepsSelector) (i : Nat) (step : Option Step) :
    StepsSelector × List SSEvent :=
  match step with
  | some st =>
    let newSteps := s.steps.take i ++ st :: s.steps.drop (i + 1)
    ({ s with steps := newSteps, dirty := true }, [SSEvent.change newSteps])
  | none => (s, [SSEvent.errorStepUndefined])

/-- Embeds `deleteStepAt(at)`: `steps` becomes `steps.slice(0, at)` and
`dirty` is set. -/
def StepsSelector.deleteStepAt (s : StepsSelector) (i : Nat) :
    StepsSelector × List SSEvent :=
  let newSteps := s.steps.take i
  ({ s with steps := newSteps, dirty := true }, [SSEvent.change newSteps])

/-- Embeds `save()`: clears `dirty` and copies the current `steps` into
`initialValue` (no `steps` assignment, hence no event). -/
def StepsSelector.save (s : StepsSelector) : StepsSelector :=
  { s with dirty := false, initialValue := s.steps }

/-- Embeds `reset()`: clears `dirty` and copies `initialValue` back into
`steps` (the `steps` setter fires a `change` event). -/
def StepsSelector.reset (s : StepsSelector) : StepsSelector × List SSEvent :=
  ({ s with dirty := false, steps := s.initialValue }, [SSEvent.change s.initialValue])

/-- Candidate list offered at index `i`, as computed in `render()`:
`this.completion(this.steps.slice(0, index))`. -/
def StepsSelector.candidatesAt (s : StepsSelector) (i : Nat) : List Step :=
  s.completion (s.steps.take i)

/-- Resolution performed by the `@set` handler in `render()`:
`completion.find(step => step.name === event.detail.value)` over the
candidates at that index. -/
def StepsSelector.resolveStep (s : StepsSelector) (i : Nat) (value : String) :
    Option Step :=
  (s.candidatesAt i).find? (fun st => st.name == value)

/-- The full `@set` intent path: resolve the selected name against the
candidates at index `i`, then call `setStepAt` with the result (possibly
`undefined`). -/
def StepsSelector.setStepAtByName (s : StepsSelector) (i : Nat) (value : String) :
    StepsSelector × List SSEvent :=
  s.setStepAt i (s.resolveStep i value)

/-- One rendered `steps-selector-item`: the step shown and the candidate
list passed down in the `values` slot. -/
structure RenderedItem where
  step : Step
  completion : List Step
deriving DecidableEq, Repr

/-- Embeds the derived view built in `render()`: each step is paired with
`completion(steps.slice(0, index))`, recomputed from the CURRENT state. -/
def StepsSelector.render (s : StepsSelector) : List RenderedItem :=
  s.steps.enum.map (fun p => { step := p.2, completion := s.candidatesAt p.1 })

/-! ### Sample concrete data for witnesses -/

def stepA : Step := { name := "A", icon := "a", type := "t" }

def stepA2 : Step := { name := "A2", icon := "a", type := "t" }

def stepB : Step := { name := "B", icon := "b", type := "t" }

def stepB2 : Step := { name := "B2", icon := "b", type := "t" }

def stepB3 : Step := { name := "B3", icon := "b", type := "t" }

def stepC : Step := { name := "C", icon := "c", type := "t" }

def stepD : Step := { name := "D", icon := "d", type := "t" }

def nameA2 : String := "A2"

def nameZ : String := "Z"

/-- Example host-supplied completion provider: at the start either `A` or
`A2` may be chosen; after `A` the candidates are `B`/`B2`; after `A2` only
`B3`. -/
def sampleCompletion : List Step → List Step := fun stepsBefore =>
  if stepsBefore = [] then [stepA, stepA2]
  else if stepsBefore = [stepA] then [stepB, stepB2]
  else if stepsBefore = [stepA2] then [stepB3]
  else [stepC]

def sampleState : StepsSelector :=
  { steps := [stepA, stepB], initialValue := [], dirty := false,
    completion := sampleCompletion }

def sampleState4 : StepsSelector :=
  { steps := [stepA, stepB, stepC, stepD], initialValue := [], dirty := false,
    completion := sampleCompletion }

/-! ### Theorems about StepsSelector -/

/-- Helper: the rendered item at index `j` pairs `steps[j]` with the
candidate list recomputed from the current state. -/
theorem StepsSelector.render_getElem? (s : StepsSelector) (j : Nat) :
    (s.render)[j]? =
      (s.steps[j]?).map (fun st => { step := st, completion := s.candidatesAt j }) := by
  simp only [StepsSelector.render, List.getElem?_map, List.getElem?_enum, Option.map_map]
  rfl

/-- C3: resolving a name that matches no completion candidate at the index
yields `undefined`; `setStepAt` then leaves the whole state unchanged,
dispatches no `change` event, and only reports the error.  A successful call
at an in-range index replaces exactly the element at that index, keeps the
length, keeps every other position, sets `dirty`, keeps `initialValue`, and
dispatches one `change` event with the new sequence. -/
theorem C3_invalid_selection_noop (s : StepsSelector) (i : Nat) (v : String) :
    (s.resolveStep i v = none →
      (s.setStepAtByName i v).1 = s ∧
      (s.setStepAtByName i v).2 = [SSEvent.errorStepUndefined]) ∧
    (∀ st, s.resolveStep i v = some st → i < s.steps.length →
      (s.setStepAtByName i v).1.steps = s.steps.set i st ∧
      (s.setStepAtByName i v).1.steps.length = s.steps.length ∧
      (∀ j, j ≠ i → (s.setStepAtByName i v).1.steps[j]? = s.steps[j]?) ∧
      (s.setStepAtByName i v).1.dirty = true ∧
      (s.setStepAtByName i v).1.initialValue = s.initialValue ∧
      (s.setStepAtByName i v).2 = [SSEvent.change (s.steps.set i st)]) := by
  constructor
  · intro h
    simp [StepsSelector.setStepAtByName, h, StepsSelector.setStepAt]
  · intro st h hi
    have hset : s.steps.take i ++ st :: s.steps.drop (i + 1) = s.steps.set i st :=
      (List.set_eq_take_cons_drop st hi).symm
    have hrun : s.setStepAtByName i v =
        ({ s with steps := s.steps.set i st, dirty := true },
          [SSEvent.change (s.steps.set i st)]) := by
      simp only [StepsSelector.setStepAtByName, h, StepsSelector.setStepAt, hset]
    rw [hrun]
    exact ⟨rfl, List.length_set .., fun j hj => List.getElem?_set_ne (Ne.symm hj),
      rfl, rfl, rfl⟩

/-- Witness for C3: in `sampleState` (steps `[A, B]`), selecting the
unresolvable name `Z` at index 0 is a no-op, while selecting `A2` replaces
index 0. -/
theorem C3_witness :
    (StepsSelector.setStepAtByName sampleState 0 nameZ).1 = sampleState ∧
    (StepsSelector.setStepAtByName sampleState 0 nameA2).1.steps =
      sampleState.steps.set 0 stepA2 :=
  ⟨((C3_invalid_selection_noop sampleState 0 nameZ).1 (by decide)).1,
   ((C3_invalid_selection_noop sampleState 0 nameA2).2 stepA2 (by decide) (by decide)).1⟩

/-- C4: `deleteStepAt i` truncates `steps` to its first `i` elements
(delete-forward), sets `dirty` unconditionally, keeps `initialValue`,
dispatches one `change` event, and when `i ≤ length` the new length is
exactly `i`. -/
theorem C4_delete_forward (s : StepsSelector) (i : Nat) :
    (s.deleteStepAt i).1.steps = s.steps.take i ∧
    (s.deleteStepAt i).1.dirty = true ∧
    (s.deleteStepAt i).1.initialValue = s.initialValue ∧
    (s.deleteStepAt i).2 = [SSEvent.change (s.steps.take i)] ∧
    (i ≤ s.steps.length → (s.deleteStepAt i).1.steps.length = i) := by
  refine ⟨rfl, rfl, rfl, rfl, fun h => ?_⟩
  simp [StepsSelector.deleteStepAt]
  omega

/-- Witness for C4: deleting at index 1 of `[A, B, C, D]` leaves exactly one
element. -/
theorem C4_witness :
    (StepsSelector.deleteStepAt sampleState4 1).1.steps.length = 1 :=
  (C4_delete_forward sampleState4 1).2.2.2.2 (by decide)

/-- C5: `save()` copies the current `steps` into `initialValue` and clears
`dirty`; `reset()` copies `initialValue` back into `steps` and clears
`dirty`; hence `save`, then any single successful `setStepAt` (valid per
completion), then `reset` restores exactly the steps present at the save and
leaves `dirty = false`. -/
theorem C5_save_reset_roundtrip (s : StepsSelector) (i : Nat) (v : String) (st : Step)
    (h : (s.save).resolveStep i v = some st) :
    ((((s.save).setStepAtByName i v).1.reset).1.steps = s.steps ∧
     (((s.save).setStepAtByName i v).1.reset).1.dirty = false) ∧
    ((s.save).initialValue = s.steps ∧ (s.save).dirty = false) ∧
    (∀ t : StepsSelector, (t.reset).1.steps = t.initialValue ∧ (t.reset).1.dirty = false) := by
  have hinit : (((s.save).setStepAtByName i v).1).initialValue = s.steps := by
    simp only [StepsSelector.setStepAtByName, h, StepsSelector.setStepAt]
    rfl
  exact ⟨⟨hinit, rfl⟩, ⟨rfl, rfl⟩, fun t => ⟨rfl, rfl⟩⟩

/-- Witness for C5 on `sampleState` (steps `[A, B]`): save, replace index 0
by the valid candidate `A2`, reset — the original steps return and the state
is clean. -/
theorem C5_witness :
    ((((sampleState.save).setStepAtByName 0 nameA2).1.reset).1.steps = sampleState.steps ∧
     (((sampleState.save).setStepAtByName 0 nameA2).1.reset).1.dirty = false) :=
  (C5_save_reset_roundtrip sampleState 0 nameA2 stepA2 (by decide)).1

/-- C6: any successful `setStepAt` and any `deleteStepAt` leave
`dirty = true`; a `setStepAt` call never clears an already-set `dirty`
(failed calls leave it untouched); `save()` and `reset()` are the operations
that set it back to `false`. -/
theorem C6_dirty_monotonicity (s : StepsSelector) (i : Nat) (v : String) :
    (s.resolveStep i v ≠ none → (s.setStepAtByName i v).1.dirty = true) ∧
    ((s.deleteStepAt i).1.dirty = true) ∧
    (s.dirty = true → (s.setStepAtByName i v).1.dirty = true) ∧
    ((s.save).dirty = false) ∧
    ((s.reset).1.dirty = false) := by
  refine ⟨fun h => ?_, rfl, fun hd => ?_, rfl, rfl⟩
  · rcases ho : s.resolveStep i v with _ | st
    · exact absurd ho h
    · simp [StepsSelector.setStepAtByName, ho, StepsSelector.setStepAt]
  · rcases ho : s.resolveStep i v with _ | st
    · simp [StepsSelector.setStepAtByName, ho, StepsSelector.setStepAt, hd]
    · simp [StepsSelector.setStepAtByName, ho, StepsSelector.setStepAt]

/-- Witness for C6: from the clean `sampleState`, a successful selection at
index 0 and a deletion at index 1 each leave the state dirty. -/
theorem C6_witness :
    (StepsSelector.setStepAtByName sampleState 0 nameA2).1.dirty = true ∧
    (StepsSelector.deleteStepAt sampleState 1).1.dirty = true :=
  ⟨(C6_dirty_monotonicity sampleState 0 nameA2).1 (by decide),
   (C6_dirty_monotonicity sampleState 1 nameA2).2.1⟩

/-- C7: every rendered item pairs `steps[j]` with
`completion(steps.slice(0, j))` computed from the CURRENT state; in
particular, after a successful replacement of index 0 by `st`, the item
rendered at index 1 still shows the old `steps[1]` but its candidate list is
`completion([st])`, recomputed against the new prefix. -/
theorem C7_completion_freshness (s : StepsSelector) (v : String) (st : Step)
    (hres : s.resolveStep 0 v = some st) :
    (∀ j : Nat, (s.render)[j]? =
      (s.steps[j]?).map (fun u => { step := u, completion := s.completion (s.steps.take j) })) ∧
    ((s.setStepAtByName 0 v).1.render)[1]? =
      (s.steps[1]?).map (fun u => { step := u, completion := s.completion [st] }) := by
  constructor
  · intro j
    exact s.render_getElem? j
  · have hrun : (s.setStepAtByName 0 v).1 =
        { s with steps := st :: s.steps.drop 1, dirty := true } := by
      simp [StepsSelector.setStepAtByName, hres, StepsSelector.setStepAt]
    rw [StepsSelector.render_getElem?, hrun]
    simp [StepsSelector.candidatesAt]

/-- Witness for C7 on `sampleState` (steps `[A, B]`): replacing index 0 by
`A2` makes the item at index 1 render with candidates `completion([A2])`
(which is `[B3]`) while still showing step `B`. -/
theorem C7_witness :
    ((sampleState.setStepAtByName 0 nameA2).1.render)[1]? =
      (sampleState.steps[1]?).map
        (fun u => { step := u, completion := sampleState.completion [stepA2] }) :=
  (C7_completion_freshness sampleState nameA2 stepA2 (by decide)).2

/-- C10: `setStepAt` at an index at or past the end is not rejected: the
defined step is appended at the end (`steps ++ [st]`, length `n + 1`),
`dirty` is set, and a `change` event is dispatched. -/
theorem C10_out_of_range_appends (s : StepsSelector) (i : Nat) (st : Step)
    (h : s.steps.length ≤ i) :
    (s.setStepAt i (some st)).1.steps = s.steps ++ [st] ∧
    (s.setStepAt i (some st)).1.steps.length = s.steps.length + 1 ∧
    (s.setStepAt i (some st)).1.dirty = true ∧
    (s.setStepAt i (some st)).1.initialValue = s.initialValue ∧
    (s.setStepAt i (some st)).2 = [SSEvent.change (s.steps ++ [st])] := by
  have ht : s.steps.take i = s.steps := List.take_of_length_le h
  have hd : s.steps.drop (i + 1) = [] := List.drop_eq_nil_of_le (by omega)
  simp [StepsSelector.setStepAt, ht, hd]

/-- Witness for C10: setting index 5 on the 2-element `sampleState` appends
the step at the end. -/
theorem C10_witness :
    (sampleState.setStepAt 5 (some stepC)).1.steps = sampleState.steps ++ [stepC] :=
  (C10_out_of_range_appends sampleState 5 stepC (by decide)).1
